import Mathlib

/-!
A shallow embedding of `src/ChannelImpl.cpp` from SimpleAmqpClient: the
channel-multiplexing and frame-demultiplexing core of an AMQP 0-9-1 client.
Pure data structures (`std::map`, `std::queue`, frame queues) are modelled as
association lists and lists; C++ exceptions are modelled with `Except`;
the by-reference output parameter `amqp_frame_t& frame` is modelled by
passing its value at entry (`frame0`) explicitly and returning the result;
calls to `amqp_send_method` and table erasures are recorded in an event
trace so that their relative order is observable.  Wall-clock time used by
the timeout logic is modelled as a natural-number clock (microseconds), and
the transport is a list of (arrival-time, frame) pairs.
-/

namespace AmqpClient

/-- AMQP frame-type constant `AMQP_FRAME_METHOD` (wire value 1). -/
def AMQP_FRAME_METHOD : Nat := 1

/-- AMQP frame-type constant `AMQP_FRAME_HEADER` (wire value 2). -/
def AMQP_FRAME_HEADER : Nat := 2

/-- AMQP frame-type constant `AMQP_FRAME_BODY` (wire value 3). -/
def AMQP_FRAME_BODY : Nat := 3

/-- AMQP method id `AMQP_CHANNEL_OPEN_METHOD` (class 20, method 10). -/
def AMQP_CHANNEL_OPEN_METHOD : Nat := 0x0014000A

/-- AMQP method id `AMQP_CHANNEL_OPEN_OK_METHOD` (class 20, method 11). -/
def AMQP_CHANNEL_OPEN_OK_METHOD : Nat := 0x0014000B

/-- AMQP method id `AMQP_CHANNEL_CLOSE_METHOD` (class 20, method 40). -/
def AMQP_CHANNEL_CLOSE_METHOD : Nat := 0x00140028

/-- AMQP method id `AMQP_CHANNEL_CLOSE_OK_METHOD` (class 20, method 41). -/
def AMQP_CHANNEL_CLOSE_OK_METHOD : Nat := 0x00140029

/-- AMQP method id `AMQP_CONNECTION_CLOSE_METHOD` (class 10, method 50). -/
def AMQP_CONNECTION_CLOSE_METHOD : Nat := 0x000A0032

/-- AMQP method id `AMQP_CONNECTION_CLOSE_OK_METHOD` (class 10, method 51). -/
def AMQP_CONNECTION_CLOSE_OK_METHOD : Nat := 0x000A0033

/-- AMQP method id `AMQP_CONFIRM_SELECT_METHOD` (class 85, method 10). -/
def AMQP_CONFIRM_SELECT_METHOD : Nat := 0x0055000A

/-- AMQP method id `AMQP_CONFIRM_SELECT_OK_METHOD` (class 85, method 11). -/
def AMQP_CONFIRM_SELECT_OK_METHOD : Nat := 0x0055000B

/-- `amqp_frame_t`: a frame carries its channel id, a frame type tag, the
method id of its payload (meaningful when `frameType = AMQP_FRAME_METHOD`)
and an opaque identity standing for the rest of the decoded payload. -/
structure Frame where
  channel : Nat
  frameType : Nat
  methodId : Nat
  decoded : Nat
deriving DecidableEq

/-- The exceptions thrown by `ChannelImpl`. -/
inductive AmqpError where
  /-- `std::runtime_error` -/
  | runtimeError (msg : String)
  /-- `std::logic_error` -/
  | logicError (msg : String)
  /-- `AmqpResponseLibraryException(reply, context)` -/
  | libraryException (context : String)
  /-- `AmqpResponseServerException` built from an `amqp_rpc_reply_t` -/
  | serverExceptionReply (replyId decoded : Nat) (context : String)
  /-- `AmqpResponseServerException` built from a decoded close method payload -/
  | serverExceptionMethod (decoded : Nat) (context : String)
  /-- `ConsumerTagNotFoundException` -/
  | consumerTagNotFound
deriving DecidableEq

/-- Results of fallible operations are compared by `decide` in concrete
runs, so equality of `Except` values must be decidable. -/
instance {ε α : Type} [DecidableEq ε] [DecidableEq α] :
    DecidableEq (Except ε α)
  | .error a, .error b =>
    if h : a = b then .isTrue (congrArg Except.error h)
    else .isFalse (fun hc => h (Except.error.inj hc))
  | .error _, .ok _ => .isFalse (fun hc => Except.noConfusion hc)
  | .ok _, .error _ => .isFalse (fun hc => Except.noConfusion hc)
  | .ok a, .ok b =>
    if h : a = b then .isTrue (congrArg Except.ok h)
    else .isFalse (fun hc => h (Except.ok.inj hc))

/-- Observable actions of the implementation, recorded in order: a call to
`amqp_send_method(conn, channel, methodId, ...)`, and the erasure of a
channel's entry from `m_open_channels`. -/
inductive Event where
  | sent (channel methodId : Nat)
  | erased (channel : Nat)
deriving DecidableEq

/-- `std::map::find` / association-list lookup is `List.lookup`.
`std::map::insert` inserts only when the key is absent (it never
overwrites an existing mapping). -/
def mapInsert {κ α : Type} [BEq κ] (m : List (κ × α)) (k : κ) (v : α) :
    List (κ × α) :=
  if (List.lookup k m).isSome then m else m ++ [(k, v)]

/-- `std::map::erase` by key (keys are unique in a `std::map`). -/
def mapErase {κ α : Type} [BEq κ] (m : List (κ × α)) (k : κ) :
    List (κ × α) :=
  m.filter (fun p => !(p.1 == k))

/-- Replace the value stored at a key (used for `it->second.push_back(...)`
through an iterator into `m_open_channels`). -/
def mapSet {κ α : Type} [BEq κ] (m : List (κ × α)) (k : κ) (v : α) :
    List (κ × α) :=
  m.map (fun p => if p.1 == k then (p.1, v) else p)

/-- The state of a `ChannelImpl` object together with the connection-level
metadata it reads (`amqp_get_channel_max`) and the trace of its observable
actions. -/
structure ChannelState where
  /-- `m_next_channel_id` (a `uint16_t`, incremented modulo 2^16) -/
  nextChannelId : Nat
  /-- `m_open_channels : std::map<amqp_channel_t, frame_queue_t>` -/
  openChannels : List (Nat × List Frame)
  /-- `m_free_channels : std::queue<amqp_channel_t>` (front = head) -/
  freeChannels : List Nat
  /-- `m_consumer_channel_map : std::map<std::string, amqp_channel_t>` -/
  consumerChannelMap : List (String × Nat)
  /-- ordered trace of sends and table erasures -/
  trace : List Event
  /-- `amqp_get_channel_max(m_connection)`: 0 means unbounded -/
  maxChannels : Nat
deriving DecidableEq

/-- `ChannelImpl::ChannelImpl()`: `m_next_channel_id(1)`, and channel 0 is
always open (inserted with an empty frame queue). -/
def ChannelImpl.init (maxChannels : Nat) : ChannelState :=
  { nextChannelId := 1
    openChannels := [(0, [])]
    freeChannels := []
    consumerChannelMap := []
    trace := []
    maxChannels := maxChannels }

/-- `amqp_send_method(m_connection, channel, methodId, payload)`, recorded in
the trace; the send itself is assumed to succeed (`CheckForError` passes). -/
def sendMethod (s : ChannelState) (channel methodId : Nat) : ChannelState :=
  { s with trace := s.trace ++ [Event.sent channel methodId] }

/-- `ChannelImpl::FinishCloseChannel(channel)`: the source first erases the
channel's `m_open_channels` entry (line 111) and only then sends
`AMQP_CHANNEL_CLOSE_OK_METHOD` on that channel (line 112). -/
def FinishCloseChannel (s : ChannelState) (channel : Nat) : ChannelState :=
  let s1 := { s with openChannels := mapErase s.openChannels channel
                     trace := s.trace ++ [Event.erased channel] }
  sendMethod s1 channel AMQP_CHANNEL_CLOSE_OK_METHOD

/-- `ChannelImpl::FinishCloseConnection()`: send
`AMQP_CONNECTION_CLOSE_OK_METHOD` on channel 0. -/
def FinishCloseConnection (s : ChannelState) : ChannelState :=
  sendMethod s 0 AMQP_CONNECTION_CLOSE_OK_METHOD

/-- `ChannelImpl::IsChannelOpen(channel)`. -/
def IsChannelOpen (s : ChannelState) (channel : Nat) : Bool :=
  (List.lookup channel s.openChannels).isSome

/-- `amqp_response_type_enum` of `amqp_rpc_reply_t`. -/
inductive ResponseType where
  | normal
  | noReplyType
  | libraryException
  | serverException
deriving DecidableEq

/-- `amqp_rpc_reply_t`: the reply type, the reply method id (`reply.reply.id`)
and an opaque identity for the decoded payload. -/
structure RpcReply where
  replyType : ResponseType
  replyId : Nat
  decoded : Nat
deriving DecidableEq

/-- `ChannelImpl::CheckRpcReply(channel, reply, context)`. -/
def CheckRpcReply (s : ChannelState) (channel : Nat) (reply : RpcReply)
    (context : String) : Except AmqpError Unit × ChannelState :=
  match reply.replyType with
  | .normal => (.ok (), s)
  | .noReplyType =>
    (.error (.logicError "Got a amqp_rpc_reply_t with no reply_type!"), s)
  | .libraryException => (.error (.libraryException context), s)
  | .serverException =>
    let s1 :=
      if reply.replyId = AMQP_CHANNEL_CLOSE_METHOD then
        FinishCloseChannel s channel
      else if reply.replyId = AMQP_CONNECTION_CLOSE_METHOD then
        FinishCloseConnection s
      else s
    (.error (.serverExceptionReply reply.replyId reply.decoded context), s1)

/-- `ChannelImpl::AddConsumer(consumer_tag, channel)`:
`m_consumer_channel_map.insert(std::make_pair(consumer_tag, channel))` —
`std::map::insert` does nothing when the key is already present. -/
def AddConsumer (s : ChannelState) (tag : String) (channel : Nat) :
    ChannelState :=
  { s with consumerChannelMap := mapInsert s.consumerChannelMap tag channel }

/-- `ChannelImpl::RemoveConsumer(consumer_tag)`: throws
`ConsumerTagNotFoundException` when the tag is absent, otherwise erases the
mapping and returns the channel it held. -/
def RemoveConsumer (s : ChannelState) (tag : String) :
    Except AmqpError Nat × ChannelState :=
  match List.lookup tag s.consumerChannelMap with
  | none => (.error .consumerTagNotFound, s)
  | some ch =>
    (.ok ch, { s with consumerChannelMap := mapErase s.consumerChannelMap tag })

/-- `ChannelImpl::GetConsumerChannel(consumer_tag)`: read-only lookup, throws
`ConsumerTagNotFoundException` when the tag is absent. -/
def GetConsumerChannel (s : ChannelState) (tag : String) :
    Except AmqpError Nat :=
  match List.lookup tag s.consumerChannelMap with
  | none => .error .consumerTagNotFound
  | some ch => .ok ch

/-- The scan loop of `ChannelImpl::GetNextChannelId`:
`while (m_open_channels.end() != m_open_channels.find(++m_next_channel_id))`.
`m_next_channel_id` is a `uint16_t`, so the pre-increment is modulo 2^16.
The loop runs until an id absent from the table is hit; a fuel of 2^16
covers every residue. -/
def scanNextId (m : List (Nat × List Frame)) (cur : Nat) : Nat → Nat
  | 0 => cur
  | fuel + 1 =>
    let cand := (cur + 1) % 65536
    if (List.lookup cand m).isSome then scanNextId m cand fuel else cand

/-- `ChannelImpl::GetNextChannelId()`: check the broker-advertised maximum
channel count against `m_open_channels.size()` (which includes channel 0),
then scan for the next unused id, insert it with an empty queue and return
it. -/
def GetNextChannelId (s : ChannelState) : Except AmqpError Nat × ChannelState :=
  if s.maxChannels = 0 ∧ 65535 ≤ s.openChannels.length then
    (.error (.runtimeError "Too many channels open"), s)
  else if 0 < s.maxChannels ∧ s.maxChannels ≤ s.openChannels.length then
    (.error (.runtimeError "Too many channels open"), s)
  else
    let nid := scanNextId s.openChannels s.nextChannelId 65536
    (.ok nid, { s with nextChannelId := nid
                       openChannels := mapInsert s.openChannels nid [] })

/-- `ChannelImpl::CreateNewChannel()`: allocate an id, then run the two
open-handshake RPCs.  `DoRpcOnChannel` itself lives in the (absent) header
`ChannelImpl.h`; modelled from the spec: it sends the method and blocks
until the expected acknowledgement arrives — here the send is recorded and
the acknowledgement is assumed to arrive normally. -/
def CreateNewChannel (s : ChannelState) : Except AmqpError Nat × ChannelState :=
  match GetNextChannelId s with
  | (.error e, s1) => (.error e, s1)
  | (.ok nc, s1) =>
    let s2 := sendMethod s1 nc AMQP_CHANNEL_OPEN_METHOD
    let s3 := sendMethod s2 nc AMQP_CONFIRM_SELECT_METHOD
    (.ok nc, s3)

/-- `ChannelImpl::GetChannel()` (= `acquireChannel`): pop the front of
`m_free_channels` when the pool is non-empty, otherwise create a new
channel. -/
def GetChannel (s : ChannelState) : Except AmqpError Nat × ChannelState :=
  match s.freeChannels with
  | [] => CreateNewChannel s
  | ret :: rest => (.ok ret, { s with freeChannels := rest })

/-- `ChannelImpl::ReturnChannel(channel)` (= `releaseChannel`): push the id
onto `m_free_channels` (`amqp_maybe_release_buffers` is advisory and leaves
this state unchanged). -/
def ReturnChannel (s : ChannelState) (channel : Nat) : ChannelState :=
  { s with freeChannels := s.freeChannels ++ [channel] }

/-- The transport, as seen through `amqp_simple_wait_frame`: a list of
frames the broker will produce, each tagged with its arrival time
(microseconds, nondecreasing). -/
structure Broker where
  frames : List (Nat × Frame)
deriving DecidableEq

/-- Outcome of one `ChannelImpl::GetNextFrameFromBroker` call. -/
inductive PullResult where
  /-- `select` reported readiness and `amqp_simple_wait_frame` returned a frame -/
  | gotFrame (f : Frame)
  /-- `select` returned 0: the call returns `false` -/
  | timedOut
  /-- infinite timeout and the transport never produces a frame -/
  | hangs
deriving DecidableEq

/-- `ChannelImpl::GetNextFrameFromBroker(frame, timeout)`: with a finite
timeout (`timeout ≠ microseconds::max()`, modelled `some t`) a `select`
with that deadline is done first and the call returns `false` when it
elapses with no frame available; otherwise `amqp_simple_wait_frame` blocks
until the next frame.  Returns the outcome, the new clock and the remaining
transport. -/
def GetNextFrameFromBroker (b : Broker) (now : Nat) (timeout : Option Nat) :
    PullResult × Nat × Broker :=
  match timeout with
  | some t =>
    match b.frames with
    | [] => (.timedOut, now + t, b)
    | (t0, f) :: rest =>
      if t0 ≤ now + t then (.gotFrame f, max now t0, ⟨rest⟩)
      else (.timedOut, now + t, b)
  | none =>
    match b.frames with
    | [] => (.hangs, now, b)
    | (t0, f) :: rest => (.gotFrame f, max now t0, ⟨rest⟩)

/-- Outcome of a `GetNextFrame...OnChannel` call: `true` with a frame,
`false` (timeout), or an unbounded block. -/
inductive NextFrameResult where
  | got (f : Frame)
  | noFrame
  | hangs
deriving DecidableEq

/-- The `while (GetNextFrameFromBroker(received_frame, timeout_left))` loop
of `ChannelImpl::GetNextFrameFromBrokerOnChannel`, translated faithfully:
all tests inside the loop read `frame` — the by-reference output parameter,
whose value at entry is `frame0` and which the loop never reassigns before
returning — not `received_frame`, the frame just pulled (source lines
337, 343, 346-347 and 355).  `deadline` is `end_point` when the timeout is
finite; `fuel` bounds the iterations (each continuing iteration consumes
one transport frame, so `b.frames.length + 1` suffices). -/
def brokerOnChannelLoop (channel : Nat) (frame0 : Frame)
    (deadline : Option Nat) :
    Nat → ChannelState → Broker → Nat → Option Nat →
    Except AmqpError NextFrameResult × ChannelState × Broker × Nat
  | 0, s, b, now, _ => (.ok .hangs, s, b, now)
  | fuel + 1, s, b, now, timeoutLeft =>
    match GetNextFrameFromBroker b now timeoutLeft with
    | (.timedOut, now1, b1) => (.ok .noFrame, s, b1, now1)
    | (.hangs, now1, b1) => (.ok .hangs, s, b1, now1)
    | (.gotFrame received, now1, b1) =>
      if frame0.channel = channel then
        -- `frame = received_frame; return true;`
        (.ok (.got received), s, b1, now1)
      else if frame0.channel = 0 then
        if frame0.frameType = AMQP_FRAME_METHOD ∧
            frame0.methodId = AMQP_CONNECTION_CLOSE_METHOD then
          (.error (.serverExceptionMethod frame0.decoded
              "ChannelImpl::GetNextFrameFromBrokerOnChannel"),
            FinishCloseConnection s, b1, now1)
        else
          -- any other channel-0 frame: fall through to the timeout update
          match deadline with
          | some ep =>
            if ep ≤ now1 then (.ok .noFrame, s, b1, now1)
            else brokerOnChannelLoop channel frame0 deadline fuel s b1 now1
                (some (ep - now1))
          | none => brokerOnChannelLoop channel frame0 deadline fuel s b1 now1 none
      else
        -- `GetChannelQueueOrThrow(frame.channel)->second.push_back(received_frame)`
        match List.lookup frame0.channel s.openChannels with
        | none => (.error (.runtimeError "Channel not found"), s, b1, now1)
        | some q =>
          let s1 :=
            { s with
              openChannels := mapSet s.openChannels frame0.channel (q ++ [received]) }
          match deadline with
          | some ep =>
            if ep ≤ now1 then (.ok .noFrame, s1, b1, now1)
            else brokerOnChannelLoop channel frame0 deadline fuel s1 b1 now1
                (some (ep - now1))
          | none => brokerOnChannelLoop channel frame0 deadline fuel s1 b1 now1 none

/-- `ChannelImpl::GetNextFrameFromBrokerOnChannel(channel, frame, timeout)`:
set `end_point = now + timeout` when the timeout is finite, then run the
pull loop.  `frame0` is the value of the output parameter `frame` at
entry. -/
def GetNextFrameFromBrokerOnChannel (s : ChannelState) (b : Broker)
    (now : Nat) (channel : Nat) (frame0 : Frame) (timeout : Option Nat) :
    Except AmqpError NextFrameResult × ChannelState × Broker × Nat :=
  brokerOnChannelLoop channel frame0 (timeout.map (fun t => now + t))
    (b.frames.length + 1) s b now timeout

/-- `ChannelImpl::GetNextFrameOnChannel(channel, frame, timeout)`.  Note the
source copies the channel's queue by value
(`frame_queue_t channel_queue = GetChannelQueueOrThrow(channel)->second;`)
and erases the dequeued frame only from that local copy, so the queue
stored in `m_open_channels` is left unchanged here. -/
def GetNextFrameOnChannel (s : ChannelState) (b : Broker) (now : Nat)
    (channel : Nat) (frame0 : Frame) (timeout : Option Nat) :
    Except AmqpError NextFrameResult × ChannelState × Broker × Nat :=
  match List.lookup channel s.openChannels with
  | none => (.error (.runtimeError "Channel not found"), s, b, now)
  | some channelQueue =>
    match channelQueue with
    | [] => GetNextFrameFromBrokerOnChannel s b now channel frame0 timeout
    | f :: _ =>
      if f.frameType = AMQP_FRAME_METHOD ∧
          f.methodId = AMQP_CHANNEL_CLOSE_METHOD then
        (.error (.serverExceptionMethod f.decoded
            "ChannelImpl::GetNextFrameOnChannel"),
          FinishCloseChannel s channel, b, now)
      else
        (.ok (.got f), s, b, now)

/-! Helper lemmas about the association-list map operations. -/

theorem lookup_mapErase_self {κ α : Type} [BEq κ] [LawfulBEq κ]
    (m : List (κ × α)) (k : κ) : List.lookup k (mapErase m k) = none := by
  induction m with
  | nil => rfl
  | cons p t ih =>
    obtain ⟨a, v⟩ := p
    cases hak : (a == k) with
    | true =>
      have he : mapErase ((a, v) :: t) k = mapErase t k := by
        simp [mapErase, List.filter_cons, hak]
      rw [he]
      exact ih
    | false =>
      have he : mapErase ((a, v) :: t) k = (a, v) :: mapErase t k := by
        simp [mapErase, List.filter_cons, hak]
      have hka : (k == a) = false := by
        rw [beq_eq_false_iff_ne] at hak ⊢
        exact fun hk => hak hk.symm
      rw [he]
      simp [List.lookup, hka, ih]

theorem lookup_append_singleton {κ α : Type} [BEq κ] [LawfulBEq κ]
    (m : List (κ × α)) (k : κ) (v : α) (h : List.lookup k m = none) :
    List.lookup k (m ++ [(k, v)]) = some v := by
  induction m with
  | nil => simp [List.lookup]
  | cons p t ih =>
    obtain ⟨a, w⟩ := p
    cases hka : (k == a) with
    | true => simp [List.lookup, hka] at h
    | false =>
      simp only [List.lookup, hka] at h
      simpa [List.lookup, hka] using ih h

theorem lookup_mapInsert_self {κ α : Type} [BEq κ] [LawfulBEq κ]
    (m : List (κ × α)) (k : κ) (v : α) (h : List.lookup k m = none) :
    List.lookup k (mapInsert m k v) = some v := by
  rw [mapInsert, h]
  simp only [Option.isSome_none, Bool.false_eq_true, if_false]
  exact lookup_append_singleton m k v h

theorem mem_keys_of_lookup_isSome {α : Type} {m : List (Nat × α)} {k : Nat}
    (h : (List.lookup k m).isSome) : k ∈ m.map Prod.fst := by
  induction m with
  | nil => simp [List.lookup] at h
  | cons p t ih =>
    obtain ⟨a, v⟩ := p
    cases hka : (k == a) with
    | true =>
      have : k = a := by rwa [beq_iff_eq] at hka
      simp [this]
    | false =>
      simp only [List.lookup, hka] at h
      simpa using Or.inr (ih h)

/-- Pigeonhole: a table with fewer than 2^16 entries leaves some 16-bit id
unused. -/
theorem exists_unused_id (m : List (Nat × List Frame)) (h : m.length < 65536) :
    ∃ r, r < 65536 ∧ List.lookup r m = none := by
  by_contra hc
  push_neg at hc
  have hsub : Finset.range 65536 ⊆ (m.map Prod.fst).toFinset := by
    intro r hr
    rw [Finset.mem_range] at hr
    rw [List.mem_toFinset]
    exact mem_keys_of_lookup_isSome
      (Option.isSome_iff_ne_none.mpr (hc r hr))
  have h1 := Finset.card_le_card hsub
  rw [Finset.card_range] at h1
  have h2 := (m.map Prod.fst).toFinset_card_le
  rw [List.length_map] at h2
  omega

/-- The scan loop lands on a key that is absent from the table, provided
some candidate within its fuel is absent. -/
theorem scanNextId_lookup_none (m : List (Nat × List Frame)) :
    ∀ (fuel cur : Nat),
      (∃ j, j < fuel ∧ List.lookup ((cur + 1 + j) % 65536) m = none) →
      List.lookup (scanNextId m cur fuel) m = none := by
  intro fuel
  induction fuel with
  | zero =>
    intro cur ⟨j, hj, _⟩
    omega
  | succ n ih =>
    intro cur ⟨j, hj, hnone⟩
    rw [scanNextId]
    by_cases hc : (List.lookup ((cur + 1) % 65536) m).isSome
    · simp only [hc, if_true]
      apply ih
      match j with
      | 0 =>
        exfalso
        rw [show (cur + 1 + 0) % 65536 = (cur + 1) % 65536 by omega] at hnone
        rw [hnone] at hc
        exact Bool.noConfusion hc
      | j' + 1 =>
        refine ⟨j', by omega, ?_⟩
        rw [show ((cur + 1) % 65536 + 1 + j') % 65536 =
          (cur + 1 + (j' + 1)) % 65536 by omega]
        exact hnone
    · simp only [hc, if_false]
      rwa [Option.not_isSome_iff_eq_none] at hc

/-- With the full fuel of 2^16 the scan always finds an id absent from a
table of fewer than 2^16 entries. -/
theorem scanNextId_fresh (m : List (Nat × List Frame)) (cur : Nat)
    (h : m.length < 65536) :
    List.lookup (scanNextId m cur 65536) m = none := by
  obtain ⟨r, hr, hnone⟩ := exists_unused_id m h
  apply scanNextId_lookup_none
  refine ⟨(r + 65536 - (cur + 1) % 65536) % 65536, by omega, ?_⟩
  rw [show (cur + 1 + (r + 65536 - (cur + 1) % 65536) % 65536) % 65536 = r by
    omega]
  exact hnone

/-! Claim C4 — channel allocation bound. -/

/-- C4 (amended): when the broker-advertised maximum `M` is positive,
`GetNextChannelId` fails with "Too many channels open" as soon as the
open-channel table — which includes the always-open channel 0 — already has
`M` entries, so from a fresh connection only the first `M - 1` acquisitions
can allocate; when `M = 0` the bound is 65535 table entries; and a
successful allocation returns an id that is not currently present in the
open-channel table. -/
theorem c4_channel_limit (s : ChannelState) :
    ((0 < s.maxChannels ∧ s.maxChannels ≤ s.openChannels.length) →
      GetNextChannelId s =
        (.error (.runtimeError "Too many channels open"), s)) ∧
    ((s.maxChannels = 0 ∧ 65535 ≤ s.openChannels.length) →
      GetNextChannelId s =
        (.error (.runtimeError "Too many channels open"), s)) ∧
    ((s.maxChannels ≤ 65535 ∧ s.openChannels.length < 65535 ∧
        (s.maxChannels = 0 ∨ s.openChannels.length < s.maxChannels)) →
      ∃ nid, (GetNextChannelId s).1 = .ok nid ∧
        List.lookup nid s.openChannels = none) := by
  refine ⟨?_, ?_, ?_⟩
  · rintro ⟨h1, h2⟩
    rw [GetNextChannelId, if_neg (fun hc => by omega), if_pos ⟨h1, h2⟩]
  · rintro ⟨h1, h2⟩
    rw [GetNextChannelId, if_pos ⟨h1, h2⟩]
  · rintro ⟨h65, hlen, hor⟩
    have hn1 : ¬ (s.maxChannels = 0 ∧ 65535 ≤ s.openChannels.length) := by
      rintro ⟨_, hc⟩; omega
    have hn2 : ¬ (0 < s.maxChannels ∧
        s.maxChannels ≤ s.openChannels.length) := by
      rintro ⟨hc1, hc2⟩
      rcases hor with h | h <;> omega
    rw [GetNextChannelId, if_neg hn1, if_neg hn2]
    exact ⟨scanNextId s.openChannels s.nextChannelId 65536, rfl,
      scanNextId_fresh _ _ (by omega)⟩

/-- C4 witness: with `maxChannels = 1` the very first allocation on a fresh
connection already fails (channel 0 fills the single slot), and with
`maxChannels = 0` a fresh connection allocates an id not present in the
table. -/
theorem c4_channel_limit_witness :
    GetNextChannelId (ChannelImpl.init 1) =
      (.error (.runtimeError "Too many channels open"), ChannelImpl.init 1) ∧
    ∃ nid, (GetNextChannelId (ChannelImpl.init 0)).1 = .ok nid ∧
      List.lookup nid (ChannelImpl.init 0).openChannels = none :=
  ⟨(c4_channel_limit (ChannelImpl.init 1)).1 (by decide),
    (c4_channel_limit (ChannelImpl.init 0)).2.2 (by decide)⟩

/-- C4 counterexample: the claim says the first `M` concurrent acquisitions
succeed; with `M = 1` the first `acquireChannel` on a fresh connection
fails, because `m_open_channels.size()` counts the always-open channel 0
against the broker's limit. -/
theorem c4_first_acquire_fails_when_max_is_one :
    (GetChannel (ChannelImpl.init 1)).1 =
      .error (.runtimeError "Too many channels open") := by
  decide

/-! Claim C5 — free-pool reuse and id sequence. -/

/-- C5 (amended): whenever the free-channel pool is non-empty,
`GetChannel` pops the front of the pool and returns it, leaving every other
component of the state (open-channel table, trace of sends) untouched — no
new id is allocated and no transport interaction happens; and from a fresh
connection with `maxChannels = 0` three successive acquisitions return ids
2, 3 and 4 (the allocator pre-increments `m_next_channel_id`, initialised
to 1, before testing, so id 1 is never handed out), after which releasing
channel 2 makes the next acquisition return 2 from the pool. -/
theorem c5_pool_reuse :
    (∀ (s : ChannelState) (c : Nat) (rest : List Nat),
      s.freeChannels = c :: rest →
      GetChannel s = (.ok c, { s with freeChannels := rest })) ∧
    (let r1 := GetChannel (ChannelImpl.init 0)
     let r2 := GetChannel r1.2
     let r3 := GetChannel r2.2
     let s4 := ReturnChannel r3.2 2
     r1.1 = .ok 2 ∧ r2.1 = .ok 3 ∧ r3.1 = .ok 4 ∧
     GetChannel s4 = (.ok 2, { s4 with freeChannels := [] })) := by
  constructor
  · intro s c rest h
    rw [GetChannel, h]
  · decide

/-- C5 witness: a pool holding `[7, 9]` yields 7 and keeps `[9]`. -/
theorem c5_pool_reuse_witness :
    GetChannel { ChannelImpl.init 0 with freeChannels := [7, 9] } =
      (.ok 7, { ChannelImpl.init 0 with freeChannels := [9] }) :=
  c5_pool_reuse.1 { ChannelImpl.init 0 with freeChannels := [7, 9] } 7 [9] rfl

/-- C5 counterexample: the claim says three successive acquisitions on a
fresh connection return ids 1, 2 and 3, but the first one returns 2
(`while (m_open_channels.find(++m_next_channel_id) ...)` pre-increments the
counter, initialised to 1, before the first test). -/
theorem c5_first_id_is_two :
    (GetChannel (ChannelImpl.init 0)).1 = .ok 2 ∧
    (GetChannel (ChannelImpl.init 0)).1 ≠ .ok 1 := by
  decide

/-! Claim C8 — consumer registry round-trip. -/

/-- C8: for a tag not currently registered, `AddConsumer(t, c)` followed by
`GetConsumerChannel(t)` returns `c`; `RemoveConsumer(t)` returns `c`, and
afterwards both `GetConsumerChannel(t)` and `RemoveConsumer(t)` fail with
`ConsumerTagNotFoundException`. -/
theorem c8_consumer_registry_roundtrip (s : ChannelState) (tag : String)
    (c : Nat) (h : List.lookup tag s.consumerChannelMap = none) :
    GetConsumerChannel (AddConsumer s tag c) tag = .ok c ∧
    (RemoveConsumer (AddConsumer s tag c) tag).1 = .ok c ∧
    GetConsumerChannel (RemoveConsumer (AddConsumer s tag c) tag).2 tag =
      .error .consumerTagNotFound ∧
    (RemoveConsumer (RemoveConsumer (AddConsumer s tag c) tag).2 tag).1 =
      .error .consumerTagNotFound := by
  have h1 : List.lookup tag (AddConsumer s tag c).consumerChannelMap =
      some c := lookup_mapInsert_self _ _ _ h
  have h2 : (RemoveConsumer (AddConsumer s tag c) tag).2.consumerChannelMap =
      mapErase (AddConsumer s tag c).consumerChannelMap tag := by
    rw [RemoveConsumer, h1]
  have h3 : List.lookup tag
      (RemoveConsumer (AddConsumer s tag c) tag).2.consumerChannelMap =
      none := by
    rw [h2]
    exact lookup_mapErase_self _ _
  refine ⟨?_, ?_, ?_, ?_⟩
  · rw [GetConsumerChannel, h1]
  · rw [RemoveConsumer, h1]
  · rw [GetConsumerChannel, h3]
  · rw [RemoveConsumer, h3]

/-- C8 witness: registering "tag1" on channel 5 in a fresh state
round-trips and unregisters as the claim states. -/
theorem c8_consumer_registry_roundtrip_witness :
    GetConsumerChannel (AddConsumer (ChannelImpl.init 0) "tag1" 5) "tag1" =
      .ok 5 ∧
    (RemoveConsumer (AddConsumer (ChannelImpl.init 0) "tag1" 5) "tag1").1 =
      .ok 5 ∧
    GetConsumerChannel
      (RemoveConsumer (AddConsumer (ChannelImpl.init 0) "tag1" 5) "tag1").2
      "tag1" = .error .consumerTagNotFound ∧
    (RemoveConsumer
      (RemoveConsumer (AddConsumer (ChannelImpl.init 0) "tag1" 5) "tag1").2
      "tag1").1 = .error .consumerTagNotFound :=
  c8_consumer_registry_roundtrip (ChannelImpl.init 0) "tag1" 5 rfl

/-! Claim C9 — order of actions in FinishCloseChannel. -/

/-- C9 (amended): `FinishCloseChannel(channel)` first erases the channel's
open-channel table entry together with any buffered frames it held, and
only then sends the channel-close acknowledgement method (erase before
send — the opposite order to the one the claim states). -/
theorem c9_finish_close_erase_then_send (s : ChannelState) (channel : Nat) :
    FinishCloseChannel s channel =
      { s with
        openChannels := mapErase s.openChannels channel
        trace := s.trace ++ [Event.erased channel,
          Event.sent channel AMQP_CHANNEL_CLOSE_OK_METHOD] } := by
  simp [FinishCloseChannel, sendMethod]

/-- C9 counterexample: closing open channel 5 records the table erasure
strictly before the `channel.close-ok` send, so the claimed send-before-
erase order is false. -/
theorem c9_erase_precedes_send :
    (FinishCloseChannel
        { ChannelImpl.init 0 with openChannels := [(0, []), (5, [])] }
        5).trace =
      [Event.erased 5, Event.sent 5 AMQP_CHANNEL_CLOSE_OK_METHOD] ∧
    (FinishCloseChannel
        { ChannelImpl.init 0 with openChannels := [(0, []), (5, [])] }
        5).trace ≠
      [Event.sent 5 AMQP_CHANNEL_CLOSE_OK_METHOD, Event.erased 5] := by
  decide

/-! Claim C10 — duplicate consumer registration. -/

/-- C10: registering a tag that is already mapped to some channel `c0`
leaves the whole state unchanged (`std::map::insert` never overwrites) and
reports no error — the tag still maps to `c0` afterwards. -/
theorem c10_duplicate_register_noop (s : ChannelState) (tag : String)
    (c0 c : Nat) (h : List.lookup tag s.consumerChannelMap = some c0) :
    AddConsumer s tag c = s ∧
    List.lookup tag (AddConsumer s tag c).consumerChannelMap = some c0 := by
  have h1 : mapInsert s.consumerChannelMap tag c = s.consumerChannelMap := by
    rw [mapInsert, h]
    rfl
  refine ⟨?_, ?_⟩
  · rw [AddConsumer, h1]
  · rw [AddConsumer, h1]
    exact h

/-- C10 witness: re-registering "tag1" (held by channel 5) on channel 7 is
a silent no-op. -/
theorem c10_duplicate_register_noop_witness :
    AddConsumer (AddConsumer (ChannelImpl.init 0) "tag1" 5) "tag1" 7 =
      AddConsumer (ChannelImpl.init 0) "tag1" 5 ∧
    List.lookup "tag1"
      (AddConsumer (AddConsumer (ChannelImpl.init 0) "tag1" 5) "tag1"
        7).consumerChannelMap = some 5 :=
  c10_duplicate_register_noop (AddConsumer (ChannelImpl.init 0) "tag1" 5)
    "tag1" 5 7 (by decide)

/-! Claim C1 — routing of frames pulled from the transport. -/

/-- C1 (code bug): the routing decision in
`GetNextFrameFromBrokerOnChannel` is NOT made on the channel field of the
frame just pulled from the transport: the source compares the stale
output-parameter `frame.channel` (line 337) instead of
`received_frame.channel`.  Here a caller waiting on channel 2 whose `frame`
variable stalely holds channel 2 receives a frame that belongs to channel 3
as a direct return, where the claim requires that frame to be appended to
channel 3's queue and pulling to continue. -/
theorem c1_routing_on_stale_frame :
    (let s := { ChannelImpl.init 0 with
                openChannels := [(0, []), (2, []), (3, [])] }
     let r := GetNextFrameOnChannel s ⟨[(0, ⟨3, 1, 99, 7⟩)]⟩ 0 2
       ⟨2, 0, 0, 0⟩ none
     r.1 = .ok (.got ⟨3, 1, 99, 7⟩) ∧
     Frame.channel ⟨3, 1, 99, 7⟩ ≠ 2 ∧
     r.2.1 = s) := by
  decide

/-! Claim C2 — buffered frames: FIFO delivery without loss or
duplication. -/

/-- C2 (code bug): `GetNextFrameOnChannel` copies the channel's queue by
value and erases the dequeued frame only from the copy, so a buffered frame
is returned but never removed from `m_open_channels`: the state after the
call is identical to the state before it, and a second call on the very
state returned by the first delivers the same frame again — duplication the
claim rules out. -/
theorem c2_buffered_frame_delivered_twice :
    (let s := { ChannelImpl.init 0 with
                openChannels := [(0, []), (5, [⟨5, 2, 0, 11⟩])] }
     let r1 := GetNextFrameOnChannel s ⟨[]⟩ 0 5 ⟨0, 0, 0, 0⟩ none
     r1.1 = .ok (.got ⟨5, 2, 0, 11⟩) ∧
     r1.2.1 = s ∧
     (GetNextFrameOnChannel r1.2.1 ⟨[]⟩ 0 5 ⟨0, 0, 0, 0⟩ none).1 =
       .ok (.got ⟨5, 2, 0, 11⟩)) := by
  decide

/-! Claim C3 — handling of channel-close method frames. -/

/-- C3 (amended): when the frame at the head of the requested channel's
buffer is a channel-close method frame, `GetNextFrameOnChannel` runs the
close handshake — the channel's open-channel table entry (with its buffered
frames) is erased and a close acknowledgement is sent — and the caller
receives the peer-initiated-close error instead of the frame; but a
channel-close frame pulled directly from the transport while a caller
waits on the channel is handed back as a normally returned frame, with no
handshake. -/
theorem c3_channel_close_handling :
    (∀ (s : ChannelState) (b : Broker) (now channel : Nat) (f : Frame)
        (rest : List Frame) (frame0 : Frame) (timeout : Option Nat),
      List.lookup channel s.openChannels = some (f :: rest) →
      f.frameType = AMQP_FRAME_METHOD →
      f.methodId = AMQP_CHANNEL_CLOSE_METHOD →
      GetNextFrameOnChannel s b now channel frame0 timeout =
        (.error (.serverExceptionMethod f.decoded
            "ChannelImpl::GetNextFrameOnChannel"),
          FinishCloseChannel s channel, b, now) ∧
      List.lookup channel (FinishCloseChannel s channel).openChannels =
        none ∧
      (FinishCloseChannel s channel).trace = s.trace ++
        [Event.erased channel,
          Event.sent channel AMQP_CHANNEL_CLOSE_OK_METHOD]) ∧
    (∀ (s : ChannelState) (now channel t0 : Nat) (f1 : Frame)
        (rest : List (Nat × Frame)) (frame0 : Frame),
      List.lookup channel s.openChannels = some [] →
      frame0.channel = channel →
      GetNextFrameOnChannel s ⟨(t0, f1) :: rest⟩ now channel frame0 none =
        (.ok (.got f1), s, ⟨rest⟩, max now t0)) := by
  constructor
  · intro s b now channel f rest frame0 timeout hlk hft hmid
    refine ⟨?_, lookup_mapErase_self _ _, ?_⟩
    · rw [GetNextFrameOnChannel, hlk]
      simp [hft, hmid]
    · simp [FinishCloseChannel, sendMethod]
  · intro s now channel t0 f1 rest frame0 hlk hch
    rw [GetNextFrameOnChannel, hlk]
    simp [GetNextFrameFromBrokerOnChannel, brokerOnChannelLoop,
      GetNextFrameFromBroker, hch]

/-- C3 witness: a buffered channel-close method frame on channel 2
triggers the handshake and surfaces as the peer-close error. -/
theorem c3_channel_close_handling_witness :
    GetNextFrameOnChannel
        { ChannelImpl.init 0 with
          openChannels :=
            [(0, []), (2, [⟨2, 1, AMQP_CHANNEL_CLOSE_METHOD, 9⟩])] }
        ⟨[]⟩ 0 2 ⟨0, 0, 0, 0⟩ none =
      (.error (.serverExceptionMethod 9
          "ChannelImpl::GetNextFrameOnChannel"),
        FinishCloseChannel
          { ChannelImpl.init 0 with
            openChannels :=
              [(0, []), (2, [⟨2, 1, AMQP_CHANNEL_CLOSE_METHOD, 9⟩])] }
          2, ⟨[]⟩, 0) ∧
    List.lookup 2 (FinishCloseChannel
        { ChannelImpl.init 0 with
          openChannels :=
            [(0, []), (2, [⟨2, 1, AMQP_CHANNEL_CLOSE_METHOD, 9⟩])] }
        2).openChannels = none ∧
    (FinishCloseChannel
        { ChannelImpl.init 0 with
          openChannels :=
            [(0, []), (2, [⟨2, 1, AMQP_CHANNEL_CLOSE_METHOD, 9⟩])] }
        2).trace =
      [] ++ [Event.erased 2, Event.sent 2 AMQP_CHANNEL_CLOSE_OK_METHOD] :=
  c3_channel_close_handling.1
    { ChannelImpl.init 0 with
      openChannels := [(0, []), (2, [⟨2, 1, AMQP_CHANNEL_CLOSE_METHOD, 9⟩])] }
    ⟨[]⟩ 0 2 ⟨2, 1, AMQP_CHANNEL_CLOSE_METHOD, 9⟩ [] ⟨0, 0, 0, 0⟩ none
    (by decide) rfl rfl

/-- C3 counterexample: a channel-close method frame for the requested
channel 2 arriving from the transport is returned to the caller as a
normal frame and the state is untouched — no table erasure, no
acknowledgement, no error — refuting the claim that the caller never
observes such a frame as a normally returned frame. -/
theorem c3_transport_close_returned_as_data :
    (let s := { ChannelImpl.init 0 with openChannels := [(0, []), (2, [])] }
     let r := GetNextFrameOnChannel s
       ⟨[(0, ⟨2, AMQP_FRAME_METHOD, AMQP_CHANNEL_CLOSE_METHOD, 5⟩)]⟩ 0 2
       ⟨2, 0, 0, 0⟩ none
     r.1 = .ok (.got ⟨2, AMQP_FRAME_METHOD, AMQP_CHANNEL_CLOSE_METHOD, 5⟩) ∧
     r.2.1 = s) := by
  decide

/-! Claim C6 — CheckRpcReply on failure replies. -/

/-- C6: when `CheckRpcReply` sees a server-reported failure
(`AMQP_RESPONSE_SERVER_EXCEPTION`) whose reply id is a channel close, it
finishes that channel's close handshake and then raises the server
exception carrying the reply; when the reply id is a connection close, it
finishes the connection close handshake and then raises; and a reply whose
type carries no information (`AMQP_RESPONSE_NONE`) always raises a
`std::logic_error` and is never silently ignored. -/
theorem c6_rpc_reply_failures (s : ChannelState) (channel : Nat)
    (reply : RpcReply) (context : String) :
    (reply.replyType = .serverException →
      reply.replyId = AMQP_CHANNEL_CLOSE_METHOD →
      CheckRpcReply s channel reply context =
        (.error (.serverExceptionReply reply.replyId reply.decoded context),
          FinishCloseChannel s channel)) ∧
    (reply.replyType = .serverException →
      reply.replyId = AMQP_CONNECTION_CLOSE_METHOD →
      CheckRpcReply s channel reply context =
        (.error (.serverExceptionReply reply.replyId reply.decoded context),
          FinishCloseConnection s)) ∧
    (reply.replyType = .noReplyType →
      CheckRpcReply s channel reply context =
        (.error (.logicError "Got a amqp_rpc_reply_t with no reply_type!"),
          s)) := by
  refine ⟨?_, ?_, ?_⟩
  · intro ht hid
    rw [CheckRpcReply, ht]
    simp [hid]
  · intro ht hid
    have hne : reply.replyId ≠ AMQP_CHANNEL_CLOSE_METHOD := by
      rw [hid]
      decide
    rw [CheckRpcReply, ht]
    simp [hid, hne]
    exact fun h => absurd h (by decide)
  · intro ht
    rw [CheckRpcReply, ht]

/-- C6 witness: a server exception naming a channel close on channel 5
finishes the channel close handshake and raises the carried reason. -/
theorem c6_rpc_reply_failures_witness :
    CheckRpcReply (ChannelImpl.init 0) 5
        ⟨.serverException, AMQP_CHANNEL_CLOSE_METHOD, 42⟩ "basic.publish" =
      (.error (.serverExceptionReply AMQP_CHANNEL_CLOSE_METHOD 42
          "basic.publish"),
        FinishCloseChannel (ChannelImpl.init 0) 5) :=
  (c6_rpc_reply_failures (ChannelImpl.init 0) 5
    ⟨.serverException, AMQP_CHANNEL_CLOSE_METHOD, 42⟩ "basic.publish").1
    rfl rfl

/-! Claim C7 — timeout behaviour of nextFrame. -/

/-- C7 (amended): with a finite timeout `t` and no buffered frame, if the
transport produces no frame at all before the deadline `now + t`, the call
returns the no-frame outcome at the deadline without raising an error and
without touching the state; and the remaining-time budget is recomputed
after every transport pull — in the concrete run below a foreign frame
arrives at 400µs of a 1000µs budget, is buffered, and the second pull waits
only the remaining 600µs, so the call times out exactly at 1000µs. -/
theorem c7_timeout_returns_no_frame :
    (∀ (s : ChannelState) (b : Broker) (now channel t : Nat)
        (frame0 : Frame),
      List.lookup channel s.openChannels = some [] →
      (b.frames = [] ∨
        ∃ t0 f rest, b.frames = (t0, f) :: rest ∧ now + t < t0) →
      GetNextFrameOnChannel s b now channel frame0 (some t) =
        (.ok .noFrame, s, b, now + t)) ∧
    (let s := { ChannelImpl.init 0 with
                openChannels := [(0, []), (2, []), (3, [])] }
     GetNextFrameOnChannel s ⟨[(400, ⟨3, 2, 0, 1⟩)]⟩ 0 2 ⟨3, 0, 0, 0⟩
        (some 1000) =
      (.ok .noFrame,
        { s with openChannels := [(0, []), (2, []), (3, [⟨3, 2, 0, 1⟩])] },
        ⟨[]⟩, 1000)) := by
  constructor
  · rintro s b now channel t frame0 hlk (hb | ⟨t0, f, rest, hb, ht⟩)
    · rw [GetNextFrameOnChannel, hlk]
      simp [GetNextFrameFromBrokerOnChannel, hb, brokerOnChannelLoop,
        GetNextFrameFromBroker]
    · have hno : ¬ t0 ≤ now + t := by omega
      rw [GetNextFrameOnChannel, hlk]
      simp [GetNextFrameFromBrokerOnChannel, hb, brokerOnChannelLoop,
        GetNextFrameFromBroker, hno]
  · decide

/-- C7 witness: `nextFrame(channel 2, timeout 0)` on an open channel with
an empty buffer and an idle transport returns no-frame at once, raising
nothing. -/
theorem c7_timeout_returns_no_frame_witness :
    GetNextFrameOnChannel
        { ChannelImpl.init 0 with openChannels := [(0, []), (2, [])] }
        ⟨[]⟩ 0 2 ⟨9, 0, 0, 0⟩ (some 0) =
      (.ok .noFrame,
        { ChannelImpl.init 0 with openChannels := [(0, []), (2, [])] },
        ⟨[]⟩, 0) :=
  c7_timeout_returns_no_frame.1
    { ChannelImpl.init 0 with openChannels := [(0, []), (2, [])] }
    ⟨[]⟩ 0 2 0 ⟨9, 0, 0, 0⟩ (by decide) (Or.inl rfl)

/-- C7 counterexample: the requested channel 2 never receives a frame, so
per the claim the deadline should elapse and the call should return
no-frame; instead, because the loop compares the stale output parameter's
channel field, the frame belonging to channel 3 is returned as the
result. -/
theorem c7_foreign_frame_returned_before_deadline :
    (let s := { ChannelImpl.init 0 with
                openChannels := [(0, []), (2, []), (3, [])] }
     let r := GetNextFrameOnChannel s ⟨[(0, ⟨3, 2, 0, 1⟩)]⟩ 0 2
       ⟨2, 0, 0, 0⟩ (some 1000)
     r.1 = .ok (.got ⟨3, 2, 0, 1⟩) ∧ Frame.channel ⟨3, 2, 0, 1⟩ ≠ 2) := by
  decide

end AmqpClient
